import Mathlib

/-!
Verification development for the InsightMiner acquisition/deduplication
pipeline (`src/InsightMiner/insight_miner.py`).

The Python source is shallowly embedded: pure helpers become Lean
functions, external effects (Instagram client calls, the filesystem,
PIL/OpenCV decoding, the analysis pipeline) are supplied through explicit
environment records whose fields give the outcome of each external call,
and exception control-flow is embedded with `Except` / explicit branch
values.  Cryptographic digests (sha256/md5 hexdigests) are modelled as
injective string encodings — their only role in the claims is equality or
inequality of digests of equal or distinct pre-images.  Python strings are
Lean `String`; Python `in` on strings is substring containment, defined
below from first principles.
-/

namespace InsightMiner

/-! ### String helpers (Python `in`, `.lower()`, `.startswith`, path parts) -/

/-- Does the pattern occur at the head of the character list? -/
def charsStarts : List Char → List Char → Bool
  | [], _ => true
  | _ :: _, [] => false
  | a :: as, b :: bs => a == b && charsStarts as bs

/-- Does the pattern occur anywhere in the character list
(Python `pat in s`)? -/
def charsHas (pat : List Char) : List Char → Bool
  | [] => charsStarts pat []
  | c :: rest => charsStarts pat (c :: rest) || charsHas pat rest

/-- Python `pat in s` for strings. -/
def strHas (s pat : String) : Bool :=
  charsHas pat.toList s.toList

/-- Python `s.startswith(pat)`. -/
def strStarts (s pat : String) : Bool :=
  charsStarts pat.toList s.toList

/-- Python `s.lower()` (character-wise). -/
def strLower (s : String) : String :=
  String.mk (s.toList.map Char.toLower)

/-- Python `s.strip()`: drop whitespace from both ends. -/
def strTrim (s : String) : String :=
  String.mk (((s.toList.dropWhile Char.isWhitespace).reverse.dropWhile
    Char.isWhitespace).reverse)

/-- Final path component of a plain path string (Python `Path(p).name`). -/
def nameChars (l : List Char) : List Char :=
  if l.contains '/' then ((l.reverse.takeWhile (fun c => c ≠ '/')).reverse) else l

/-- Python `Path(p).name`. -/
def fileName (s : String) : String :=
  String.mk (nameChars s.toList)

/-- Python `Path(p).suffix` (the extension of the final component,
including the dot; empty when the name has no dot). -/
def suffixOf (s : String) : String :=
  let n := nameChars s.toList
  if n.contains '.' then
    String.mk ('.' :: (n.reverse.takeWhile (fun c => c ≠ '.')).reverse)
  else ""

/-- Python `Path(p).stem` (final component without its extension). -/
def stemOf (s : String) : String :=
  let n := nameChars s.toList
  if n.contains '.' then
    String.mk (((n.reverse.dropWhile (fun c => c ≠ '.')).drop 1).reverse)
  else String.mk n

/-! ### Exceptions

A raised Python exception is modelled by its type name and its message
(`str(e)`). -/

/-- A Python exception value: its type name and its `str(e)` message. -/
structure PyError where
  etype : String
  msg : String
deriving DecidableEq

/-! ### Retry/backoff engine — `InstagramDownloader._retry_download_with_backoff`
(insight_miner.py lines 436–513)

The wrapped operation is modelled by the outcome of each invocation:
`op i` is what the `download_func()` call does on the (zero-indexed)
attempt `i`.  The sleep between attempts has no observable effect on the
result and is not modelled.  The engine returns the final outcome
together with the number of invocations it performed. -/

/-- The keyword list the source uses to classify retryable errors. -/
def timeout_keywords : List String :=
  ["timeout", "timed out", "connection", "read timeout", "connectionerror", "httperror"]

/-- Error classification: `str(e).lower()` contains one of the keywords. -/
def is_timeout_error (e : PyError) : Bool :=
  timeout_keywords.any (fun k => strHas (strLower e.msg) k)

/-- The terminal error raised after exhausting all retryable attempts:
`Exception(f"Download timeout after {max_retries} retries: {str(e)}")`. -/
def timeoutTerminalError (max_retries : Nat) (e : PyError) : PyError :=
  ⟨"Exception", "Download timeout after " ++ toString max_retries ++ " retries: " ++ e.msg⟩

/-- Body of `for attempt in range(max_retries)` in
`_retry_download_with_backoff`, iterating over the remaining attempt
indices and counting invocations. -/
def retryGo (op : Nat → Except PyError α) (max_retries : Nat) :
    List Nat → Nat → Except PyError α × Nat
  | [], count => (.error ⟨"Exception", "Unexpected retry loop exit"⟩, count)
  | attempt :: rest, count =>
    match op attempt with
    | .ok a => (.ok a, count + 1)
    | .error e =>
      if is_timeout_error e then
        if attempt < max_retries - 1 then
          retryGo op max_retries rest (count + 1)
        else
          (.error (timeoutTerminalError max_retries e), count + 1)
      else
        (.error e, count + 1)

/-- `InstagramDownloader._retry_download_with_backoff`: result together with
the number of invocations of the wrapped operation. -/
def retry_download_with_backoff (op : Nat → Except PyError α) (max_retries : Nat) :
    Except PyError α × Nat :=
  retryGo op max_retries (List.range max_retries) 0

/-! ### URL validator & classifier (lines 644–695) -/

/-- The accepted Instagram domains. -/
def valid_domains : List String := ["instagram.com", "instagr.am", "www.instagram.com"]

/-- `InstagramDownloader._validate_instagram_url`.  The `isinstance` check
is vacuous in the embedding (the argument is a string). -/
def validate_instagram_url (url : String) : Bool :=
  if url = "" then false
  else
    let u := strTrim url
    if !(valid_domains.any (fun d => strHas (strLower u) d)) then false
    else if !(strStarts u "http://" || strStarts u "https://") then false
    else true

/-- `InstagramDownloader._get_content_type_from_url`. -/
def get_content_type_from_url (url : String) : String :=
  let url_lower := strLower url
  if strHas url_lower "/reel/" || strHas url_lower "/tv/" then "video"
  else if strHas url_lower "/p/" then "auto"
  else if strHas url_lower "/stories/" then "story"
  else "unknown"

/-! ### Raw-protocol URL extraction —
`InstagramDownloader._extract_all_download_urls_from_raw_data`
(lines 1123–1201)

The raw Instagram API response is modelled by exactly the fields the
function reads: `items[0]`, its `video_versions` / `image_versions2
.candidates` lists (each entry possibly carrying a `url`), and its
`carousel_media` items with their `media_type` and their own version
lists.  A missing `url` key is `none`; Python's truthiness test `if url:`
also skips the empty string. -/

/-- One entry of `video_versions` or of `image_versions2.candidates`:
only the `url` field is read (width/height are only logged). -/
structure VersionEntry where
  url : Option String
deriving DecidableEq

/-- One entry of `carousel_media`. -/
structure CarouselItem where
  media_type : Nat
  video_versions : List VersionEntry
  image_candidates : List VersionEntry
deriving DecidableEq

/-- An element of the raw response's `items` list. -/
structure MediaItem where
  video_versions : List VersionEntry
  image_candidates : List VersionEntry
  carousel_media : List CarouselItem
deriving DecidableEq

/-- The raw response document. -/
structure RawData where
  items : List MediaItem
deriving DecidableEq

/-- Python truthiness of the optional `url` value (`if url:`). -/
def urlTruthy : Option String → Bool
  | none => false
  | some u => !(u = "")

/-- The primary-variant loop: append every truthy `url`, with no
duplicate check (lines 1141–1147 / 1171–1177). -/
def appendVersions (vs : List VersionEntry) (all_urls : List String) : List String :=
  match vs with
  | [] => all_urls
  | v :: rest =>
    match v.url with
    | none => appendVersions rest all_urls
    | some u =>
      if u = "" then appendVersions rest all_urls
      else appendVersions rest (all_urls ++ [u])

/-- The carousel loop over one item's versions: append every truthy `url`
that is not already in `all_urls` (lines 1158–1164 / 1184–1190). -/
def appendVersionsDedup (vs : List VersionEntry) (all_urls : List String) : List String :=
  match vs with
  | [] => all_urls
  | v :: rest =>
    match v.url with
    | none => appendVersionsDedup rest all_urls
    | some u =>
      if u = "" then appendVersionsDedup rest all_urls
      else if all_urls.contains u then appendVersionsDedup rest all_urls
      else appendVersionsDedup rest (all_urls ++ [u])

/-- The loop over `carousel_media`, keeping only items whose `media_type`
matches the target, reading the selected version list of each. -/
def appendCarousel (target : Nat) (select : CarouselItem → List VersionEntry)
    (cs : List CarouselItem) (all_urls : List String) : List String :=
  match cs with
  | [] => all_urls
  | c :: rest =>
    if c.media_type = target then
      appendCarousel target select rest (appendVersionsDedup (select c) all_urls)
    else
      appendCarousel target select rest all_urls

/-- `InstagramDownloader._extract_all_download_urls_from_raw_data`. -/
def extract_all_download_urls_from_raw_data (raw : RawData) (media_type : Nat) :
    List String :=
  match raw.items with
  | [] => []
  | media_item :: _ =>
    if media_type = 2 then
      appendCarousel 2 CarouselItem.video_versions media_item.carousel_media
        (appendVersions media_item.video_versions [])
    else
      appendCarousel 1 CarouselItem.image_candidates media_item.carousel_media
        (appendVersions media_item.image_candidates [])

/-! ### Deduplication engine — `ImageHasher` (lines 91–187)

`calculate_image_hash` reads the file bytes, takes their sha256
hexdigest, decodes the image with PIL, downscales to an 8×8 grayscale
grid, thresholds each pixel against the mean, renders the 64-bit string
as a hex numeral, and md5-hashes the concatenation of the two digests.
On any exception (unreadable file, undecodable image) it returns
`md5(f"error_{datetime.now().isoformat()}")` — a value that depends on
the clock.

The external pieces are modelled concretely: digests as injective string
encodings, and the PIL open/convert/resize pipeline as a fixed function
of the bytes that fails exactly on the empty byte string (no image format
decodes an empty file) and otherwise yields 64 grayscale values derived
from the bytes. -/

/-- Model of `hashlib.sha256(bytes).hexdigest()`: an injective encoding. -/
def sha256Hex (bs : List Nat) : String :=
  "sha256<" ++ toString bs ++ ">"

/-- Model of `hashlib.md5(s.encode()).hexdigest()`: an injective encoding. -/
def md5Hex (s : String) : String :=
  "md5<" ++ s ++ ">"

/-- Model of `Image.open(...).convert('L').resize((8, 8))` followed by
`list(img.getdata())`: fails on an undecodable byte string (modelled as
the empty file), otherwise produces the 64 grayscale pixels as a function
of the bytes alone. -/
def pilGrayPixels (bs : List Nat) : Option (List Nat) :=
  match bs with
  | [] => none
  | _ => some ((bs ++ List.replicate 64 0).take 64)

/-- The filesystem visible to the processor: path to file bytes. -/
def lookupFS : List (String × List Nat) → String → Option (List Nat)
  | [], _ => none
  | (k, v) :: rest, p => if k = p then some v else lookupFS rest p

/-- `os.remove` on the byte-level filesystem. -/
def removeFS : List (String × List Nat) → String → List (String × List Nat)
  | [], _ => []
  | (k, v) :: rest, p => if k = p then removeFS rest p else (k, v) :: removeFS rest p

/-- The combined-hash computation on successfully decoded pixels: the
mean threshold `pixel > avg` is exact, because `avg = sum/64` and `64`
is a power of two, so `pixel > avg ↔ 64 * pixel > sum`. -/
def combinedHashOf (bs : List Nat) (pixels : List Nat) : String :=
  let file_hash := sha256Hex bs
  let total := pixels.foldl (fun a p => a + p) 0
  let bits := pixels.map (fun p => decide (64 * p > total))
  let v := bits.foldl (fun acc b => 2 * acc + (if b then 1 else 0)) 0
  let perceptual_hash := String.mk (Nat.toDigits 16 v)
  md5Hex (file_hash ++ "_" ++ perceptual_hash)

/-- `ImageHasher.calculate_image_hash`, a function of the filesystem
state, the current clock reading `now` (consulted only by the exception
path) and the path. -/
def calculate_image_hash (fs : List (String × List Nat)) (now : String)
    (image_path : String) : String :=
  match lookupFS fs image_path with
  | none => md5Hex ("error_" ++ now)
  | some bs =>
    match pilGrayPixels bs with
    | none => md5Hex ("error_" ++ now)
    | some pixels => combinedHashOf bs pixels

/-- A record of the hash cache (`FingerprintRecord`): the analysis fields
stored by `store_hash` plus the bookkeeping fields. -/
structure HashRec where
  original_filename : String
  category : String
  confidence : String
  summary : String
  first_seen : String
  last_seen : Option String
  duplicate_count : Nat
deriving DecidableEq

/-- Lookup in the hash cache (Python dict membership / access). -/
def lookupCache : List (String × HashRec) → String → Option HashRec
  | [], _ => none
  | (k, v) :: rest, h => if k = h then some v else lookupCache rest h

/-- Python dict assignment `cache[h] = r` (replace or insert). -/
def setCache : List (String × HashRec) → String → HashRec → List (String × HashRec)
  | [], h, r => [(h, r)]
  | (k, v) :: rest, h, r => if k = h then (h, r) :: rest else (k, v) :: setCache rest h r

/-- `ImageHasher.is_duplicate`. -/
def is_duplicate (cache : List (String × HashRec)) (image_hash : String) :
    Bool × Option HashRec :=
  match lookupCache cache image_hash with
  | some existing_data => (true, some existing_data)
  | none => (false, none)

/-- The analysis fields passed to `store_hash` by the caller. -/
structure StoredData where
  original_filename : String
  category : String
  confidence : String
  summary : String
deriving DecidableEq

/-- `ImageHasher.store_hash`: insert the analysis data with
`first_seen = now` and `duplicate_count = 0`. -/
def store_hash (cache : List (String × HashRec)) (now : String)
    (image_hash : String) (d : StoredData) : List (String × HashRec) :=
  setCache cache image_hash
    ⟨d.original_filename, d.category, d.confidence, d.summary, now, none, 0⟩

/-- `ImageHasher.increment_duplicate_count`: bump the counter and set
`last_seen` when the hash is present; otherwise no change. -/
def increment_duplicate_count (cache : List (String × HashRec)) (now : String)
    (image_hash : String) : List (String × HashRec) :=
  match lookupCache cache image_hash with
  | some r =>
    setCache cache image_hash { r with duplicate_count := r.duplicate_count + 1,
                                       last_seen := some now }
  | none => cache

/-! ### Content processor — `ContentProcessor` (lines 1996–2361, 2248–2275)

External collaborators (PIL image verification, OpenCV video probing,
image compression, the hybrid LLM/OCR analysis, the Supabase insert, the
whole video pipeline) are supplied through an environment record; the
processor's own control flow and its mutations of the hash cache, the
filesystem and the persisted-rows list are embedded from the source. -/

/-- `Config.SUPPORTED_IMAGE_FORMATS` (line 238). -/
def SUPPORTED_IMAGE_FORMATS : List String := [".jpg", ".jpeg", ".png", ".webp", ".bmp"]

/-- `Config.SUPPORTED_VIDEO_FORMATS` (line 239). -/
def SUPPORTED_VIDEO_FORMATS : List String := [".mp4", ".avi", ".mov", ".mkv", ".webm"]

/-- The result of `analyze_content_hybrid` as read by the caller:
the `category`, `confidence` and `summary` fields of the analysis dict
(`confidence`, a float, is kept opaque as its printed value). -/
structure AnalysisOut where
  category : String
  confidence : String
  summary : String
deriving DecidableEq

/-- Processor state: the filesystem, the `ImageHasher` cache, and the
filenames persisted by `save_analysis_only` (Supabase rows). -/
structure ProcState where
  fs : List (String × List Nat)
  cache : List (String × HashRec)
  saved : List String
deriving DecidableEq

/-- Outcomes of the processor's external collaborators.  `cv2OpenOk`
models `cv2.VideoCapture(...).isOpened()` on the file's bytes;
`compress` models `compress_image` (the produced temp path, or `None`);
`analyze` models `analyze_content_hybrid` on the compressed file;
`saveOk` models the success of the Supabase insert for a given original
filename; `videoOutcome` models the whole out-of-scope video pipeline
(`process_video`), which never touches the hash cache and removes the
video file exactly when it returns success. -/
structure ProcEnv where
  now : String
  cv2OpenOk : List Nat → Bool
  compress : String → Option String
  analyze : String → AnalysisOut
  saveOk : String → Bool
  videoOutcome : String → Bool × String

/-- `ContentProcessor.validate_file` (lines 1996–2023): extension check,
size bound, then an integrity probe (PIL `verify` for images — modelled
by decodability, i.e. `pilGrayPixels` — and `cv2.VideoCapture` for
videos).  A missing file makes `stat` raise, so every such path reports
`"corrupted"`. -/
def validate_file (env : ProcEnv) (fs : List (String × List Nat)) (p : String) :
    Bool × String :=
  let file_ext := strLower (suffixOf p)
  if SUPPORTED_IMAGE_FORMATS.contains file_ext then
    match lookupFS fs p with
    | none => (false, "corrupted")
    | some bs =>
      if bs.length > 10 * 1024 * 1024 then (false, "too_large")
      else if (pilGrayPixels bs).isSome then (true, "image")
      else (false, "corrupted")
  else if SUPPORTED_VIDEO_FORMATS.contains file_ext then
    match lookupFS fs p with
    | none => (false, "corrupted")
    | some bs =>
      if bs.length > 50 * 1024 * 1024 then (false, "too_large")
      else if env.cv2OpenOk bs then (true, "video")
      else (false, "corrupted")
  else (false, "unsupported")

/-- `ContentProcessor.process_image_with_hash` (lines 2320–2361):
compress, analyze, persist the analysis, then `store_hash` and delete the
original exactly when the persist succeeded.  The compressed temp file
lives outside the modelled folder and its cleanup is not tracked. -/
def process_image_with_hash (env : ProcEnv) (st : ProcState)
    (image_path : String) (image_hash : String) : (Bool × String) × ProcState :=
  match env.compress image_path with
  | none => ((false, "Compression failed"), st)
  | some compressed_path =>
    let analysis := env.analyze compressed_path
    if analysis.category = "Error" then ((false, "Analysis failed"), st)
    else
      let success := env.saveOk (fileName image_path)
      if success then
        let cache' := store_hash st.cache env.now image_hash
          ⟨fileName image_path, analysis.category, analysis.confidence, analysis.summary⟩
        ((true, "Image processed - analysis saved (no image stored)"),
         { fs := removeFS st.fs image_path, cache := cache',
           saved := st.saved ++ [fileName image_path] })
      else ((false, "Database save failed"), st)

/-- `ContentProcessor.process_video` (lines 2277–2318), modelled by its
outcome: the video analysis pipeline is an out-of-scope collaborator; it
never writes the hash cache, persists a row and removes the video file
exactly when it reports success. -/
def process_video (env : ProcEnv) (st : ProcState) (video_path : String) :
    (Bool × String) × ProcState :=
  let r := env.videoOutcome video_path
  if r.1 then
    (r, { st with fs := removeFS st.fs video_path,
                  saved := st.saved ++ [fileName video_path] })
  else (r, st)

/-- `ContentProcessor.process_single_file` (lines 2248–2275). -/
def process_single_file (env : ProcEnv) (st : ProcState) (file_path : String) :
    (Bool × String) × ProcState :=
  let v := validate_file env st.fs file_path
  if !v.1 then ((false, "Invalid file: " ++ v.2), st)
  else if v.2 = "image" then
    let image_hash := calculate_image_hash st.fs env.now file_path
    let dup := is_duplicate st.cache image_hash
    if dup.1 then
      let cache' := increment_duplicate_count st.cache env.now image_hash
      let fs' := removeFS st.fs file_path
      let orig := match dup.2 with
        | some existing_data => existing_data.original_filename
        | none => "unknown"
      ((true, "Duplicate detected - skipped (original: " ++ orig ++ ")"),
       { st with cache := cache', fs := fs' })
    else process_image_with_hash env st file_path image_hash
  else if v.2 = "video" then process_video env st file_path
  else process_image_with_hash env st file_path (calculate_image_hash st.fs env.now file_path)

/-! ### Processing handoff queue — `ContentProcessor.process_instagram_queue`
(lines 2595–2667)

One drain pass over the flag files of a folder.  Each flag is a JSON
sidecar; parsing never fails in the embedding, so the per-flag exception
handler (which would unlink an unreadable flag) is not exercised.  The
pass threads the surviving flag list and records, in order, the files it
handed to `process_single_file`. -/

/-- A `ProcessingFlag` document as written by
`_trigger_content_processing` and rewritten by the drain pass. -/
structure FlagData where
  file_path : String
  source_url : String
  media_pk : Option String
  media_type : Nat
  processed : Bool
  processing_error : Option String
deriving DecidableEq

/-- One drain pass over a folder's flag files.  `outcome` gives the
result of `process_single_file` for each referenced file, `files` the set
of existing file paths.  Returns the flag files still on disk after the
pass together with the list of files handed to the processor. -/
def drainPass (outcome : String → Bool × String) (files : List String) :
    List (String × FlagData) → List (String × FlagData) × List String
  | [] => ([], [])
  | (flag_file, flag_data) :: rest =>
    if flag_data.processed then
      drainPass outcome files rest
    else if !(files.contains flag_data.file_path) then
      drainPass outcome files rest
    else
      let r := outcome flag_data.file_path
      let tail := drainPass outcome files rest
      if r.1 then
        (tail.1, flag_data.file_path :: tail.2)
      else
        ((flag_file, { flag_data with processed := true,
                                      processing_error := some r.2 }) :: tail.1,
         flag_data.file_path :: tail.2)

/-! ### Instagram downloader — `InstagramDownloader.download_single_reel`
(lines 697–944) and its fallback helpers (lines 946–1300, 1668–1692)

File paths on the downloader side are directory/name pairs; the
filesystem is the list of existing files.  The Instagram client, the
session layer and the network are supplied through an environment
record: each field is the outcome of one external call.  A raised
exception is a `PyError`; the only operation inside the big `try` of
`download_single_reel` whose exception is not caught by a more local
handler is `folder_path.mkdir` — every other inner call either catches
locally (session setup, URL validation, PK extraction, media info,
fallback download, flag writing) or is wrapped in a dedicated inner
`try` (the normal download/rename blocks). -/

/-- A filesystem path: directory and file name. -/
structure FPath where
  dir : String
  name : String
deriving DecidableEq

/-- `str(path)`. -/
def FPath.str (p : FPath) : String := p.dir ++ "/" ++ p.name

/-- The fields of a media-info object that the downloader reads: the
primary key, the `media_type` discriminant (1 = image, 2 = video) and
the fallback marker set by `_create_minimal_media_info`.  The post-
download metadata detection (lines 1423–1464) only ever adds analysis
attributes (file size, resolution, transcript, OCR flags), never `pk`
or `media_type`, so it is the identity on these fields. -/
structure MediaInfo where
  pk : String
  media_type : Nat
  is_fallback : Bool
deriving DecidableEq

/-- The configuration values consumed by the downloader. -/
structure DlCfg where
  VIDEO_FOLDER : String
  INPUT_FOLDER : String
  INSTAGRAM_RETRY_ATTEMPTS : Nat
deriving DecidableEq

/-- Downloader-side state: existing files and written processing flags
(flag file path to flag document). -/
structure DlState where
  files : List FPath
  flags : List (String × FlagData)
deriving DecidableEq

/-- Python dict-file semantics for writing a flag file (overwrite or
create). -/
def setFlag : List (String × FlagData) → String → FlagData → List (String × FlagData)
  | [], f, d => [(f, d)]
  | (k, v) :: rest, f, d => if k = f then (f, d) :: rest else (k, v) :: setFlag rest f d

/-- Outcomes of the downloader's external calls.
* `clientAvailable` — `self.client` is not `None`;
* `sessionActive` — `get_session_status()["status"] == "active"`;
* `setupSessionResult` — the `(bool, str)` result of `setup_session`;
* `mediaPkRes` — `client.media_pk_from_url(url)`;
* `mediaInfoRes` — `client.media_info(media_pk)`;
* `probeVideoOk` / `probePhotoOk` — the cheap download probes of
  `_detect_media_type_fallback` (a raised probe exception is a `false`);
* `minimalInfoFails` — an exception inside `_create_minimal_media_info`;
* `mkdirErr` — `folder_path.mkdir(exist_ok=True)` raising;
* `rawMediaData` — `_get_raw_media_data` (all failures collapse to
  `none` in the source);
* `attemptUrl` — success of `_download_file_direct_http` for a candidate
  URL, including its internal 404/403 escalation ladder; a success has
  streamed the file to the destination path;
* `videoDownload` / `photoDownload` — outcome of the wrapped
  `client.video_download` / `client.photo_download` per retry attempt,
  returning the path instagrapi wrote (a success writes that file);
* `flagWriteFails` — writing the processing-flag JSON raising. -/
structure DlEnv where
  clientAvailable : Bool
  sessionActive : Bool
  setupSessionResult : Bool × String
  mediaPkRes : Except PyError String
  mediaInfoRes : Except PyError MediaInfo
  probeVideoOk : Bool
  probePhotoOk : Bool
  minimalInfoFails : Bool
  mkdirErr : Option PyError
  rawMediaData : Option RawData
  attemptUrl : String → Bool
  videoDownload : Nat → Except PyError (Option FPath)
  photoDownload : Nat → Except PyError (Option FPath)
  flagWriteFails : Bool

/-- The classification at line 780: a validation-class failure of the
metadata call (`"ValidationError" in error_type or "validation" in
error_msg.lower()`). -/
def isValidationClass (e : PyError) : Bool :=
  strHas e.etype "ValidationError" || strHas (strLower e.msg) "validation"

/-- `InstagramDownloader._detect_media_type_fallback` (lines 992–1047):
URL shape first (case-sensitive checks in the source), then the download
probes, then the default of video. -/
def detect_media_type_fallback (env : DlEnv) (url : String) : Nat :=
  if strHas url "/reel/" || strHas url "/reels/" then 2
  else if strHas url "/p/" then 2
  else if env.probeVideoOk then 2
  else if env.probePhotoOk then 1
  else 2

/-- `InstagramDownloader._create_minimal_media_info` (lines 946–990):
returns the reconstructed descriptor, or `None` when an exception occurs
inside. -/
def create_minimal_media_info (env : DlEnv) (media_pk url : String) : Option MediaInfo :=
  if env.minimalInfoFails then none
  else some ⟨media_pk, detect_media_type_fallback env url, true⟩

/-- `InstagramDownloader._download_with_url_fallbacks` (lines 1209–1239):
try each candidate URL in order, stopping at the first success; a success
has written the destination file.  A raised attempt is a failed attempt
(the handler continues with the next URL). -/
def download_with_url_fallbacks (attemptUrl : String → Bool) (urls : List String)
    (file_path : FPath) (files : List FPath) : Bool × List FPath :=
  match urls with
  | [] => (false, files)
  | u :: rest =>
    if attemptUrl u then (true, file_path :: files)
    else download_with_url_fallbacks attemptUrl rest file_path files

/-- `InstagramDownloader._fallback_download_direct` (lines 1049–1097):
`.ok (message, path)` is the source's `(True, message, path)`,
`.error message` its `(False, message, None)`. -/
def fallback_download_direct (env : DlEnv) (media_pk : String) (media_type : Nat)
    (folder_path : String) (files : List FPath) :
    Except String (String × FPath) × List FPath :=
  let safe_filename := "instagram_" ++ media_pk
  match env.rawMediaData with
  | none => (.error "Failed to fetch raw media data", files)
  | some raw_media_data =>
    let download_urls := extract_all_download_urls_from_raw_data raw_media_data media_type
    if download_urls = [] then
      (.error "Could not extract any download URLs from raw data", files)
    else
      let download_path : FPath :=
        ⟨folder_path, safe_filename ++ (if media_type = 2 then ".mp4" else ".jpg")⟩
      let r := download_with_url_fallbacks env.attemptUrl download_urls download_path files
      if r.1 && r.2.contains download_path then
        (.ok ("Downloaded via raw API fallback: " ++ download_path.name, download_path), r.2)
      else (.error "Raw API download failed", r.2)

/-- `InstagramDownloader._trigger_content_processing` (lines 1668–1692):
write the processing-flag sidecar; any exception is caught and only
logged, leaving the state unchanged. -/
def trigger_content_processing (env : DlEnv) (file_path : FPath) (source_url : String)
    (media_info : MediaInfo) (st : DlState) : DlState :=
  if env.flagWriteFails then st
  else
    let flag_file := file_path.dir ++ "/.processing_" ++ stemOf file_path.name ++ ".json"
    let doc : FlagData :=
      ⟨file_path.str, source_url, some media_info.pk, media_info.media_type, false, none⟩
    { st with flags := setFlag st.flags flag_file doc }

/-- Lines 907–932 of `download_single_reel`: verify the downloaded file
exists, run the post-download metadata pass (identity on the fields the
flag reads), write the processing flag, and return success. -/
def verifyAndQueue (env : DlEnv) (st : DlState) (download_path : FPath)
    (media_info : MediaInfo) (url : String) : (Bool × String) × DlState :=
  if st.files.contains download_path then
    let st' := trigger_content_processing env download_path url media_info st
    ((true, "Downloaded: " ++ download_path.name), st')
  else
    ((false, "Download failed - file not found at expected location"), st)

/-- The normal (non-fallback) download block for one media kind
(lines 844–905): retry-wrapped download, then the rename/glob dance.
`ext` is `".mp4"` for videos and `".jpg"` for photos, `kind` the word
used in the error message. -/
def normalDownload (env : DlEnv) (st : DlState) (media_info : MediaInfo)
    (url folder_path safe_filename ext kind : String)
    (op : Nat → Except PyError (Option FPath)) (attempts : Nat) (media_pk : String) :
    (Bool × String) × DlState :=
  let download_path : FPath := ⟨folder_path, safe_filename ++ ext⟩
  match (retry_download_with_backoff op attempts).1 with
  | .error e => ((false, kind ++ " download failed: " ++ e.msg), st)
  | .ok downloaded_file =>
    match downloaded_file with
    | some df =>
      let files1 := df :: st.files
      if files1.contains df then
        if df.str ≠ download_path.str then
          verifyAndQueue env { st with files := download_path :: files1.erase df }
            download_path media_info url
        else
          verifyAndQueue env { st with files := files1 } download_path media_info url
      else
        match files1.filter (fun p => p.dir = folder_path && strHas p.name media_pk) with
        | [] => ((false, kind ++ " download completed but file not found"),
                 { st with files := files1 })
        | g :: _ =>
          verifyAndQueue env { st with files := download_path :: files1.erase g }
            download_path media_info url
    | none =>
      match st.files.filter (fun p => p.dir = folder_path && strHas p.name media_pk) with
      | [] => ((false, kind ++ " download completed but file not found"), st)
      | g :: _ =>
        verifyAndQueue env { st with files := download_path :: st.files.erase g }
          download_path media_info url

/-- The boundary handler at lines 934–944: every exception that reaches
the outer `except` is reduced to `(False, message)`. -/
def boundaryHandler (e : PyError) : Bool × String :=
  if strHas (strLower e.msg) "not found" then (false, "Content not found or private")
  else if strHas (strLower e.msg) "rate limit" then (false, "Rate limited. Please try again later.")
  else (false, "Download failed: " ++ e.msg)

/-- Lines 804–932 of `download_single_reel`: folder routing, `mkdir`
(the one uncaught raise site, routed to the boundary handler), then the
fallback or normal download and the verification/queueing tail. -/
def routeAndDownload (env : DlEnv) (cfg : DlCfg) (url : String)
    (download_folder : Option String) (st : DlState) (media_pk : String)
    (media_info : MediaInfo) (use_fallback : Bool) : (Bool × String) × DlState :=
  let target_folder := if media_info.media_type = 2 then cfg.VIDEO_FOLDER else cfg.INPUT_FOLDER
  let folder_path := match download_folder with
    | some d => d
    | none => target_folder
  match env.mkdirErr with
  | some e => (boundaryHandler e, st)
  | none =>
    let safe_filename := "instagram_" ++ media_pk
    if use_fallback then
      let r := fallback_download_direct env media_pk media_info.media_type folder_path st.files
      let st1 := { st with files := r.2 }
      match r.1 with
      | .error m => ((false, "Fallback download failed: " ++ m), st1)
      | .ok s => verifyAndQueue env st1 s.2 media_info url
    else
      if media_info.media_type = 2 then
        normalDownload env st media_info url folder_path safe_filename ".mp4" "Video"
          env.videoDownload cfg.INSTAGRAM_RETRY_ATTEMPTS media_pk
      else
        normalDownload env st media_info url folder_path safe_filename ".jpg" "Photo"
          env.photoDownload cfg.INSTAGRAM_RETRY_ATTEMPTS media_pk

/-- `InstagramDownloader.download_single_reel` (lines 697–944).  The
third component reports whether the reconstruction fallback
(`_create_minimal_media_info`) was activated. -/
def download_single_reel (env : DlEnv) (cfg : DlCfg) (url : String)
    (download_folder : Option String) (st : DlState) :
    (Bool × String) × DlState × Bool :=
  if !env.clientAvailable then
    ((false, "Instagram client not available"), st, false)
  else if !env.sessionActive && !(env.setupSessionResult).1 then
    ((false, "Login required: " ++ (env.setupSessionResult).2), st, false)
  else if !(validate_instagram_url url) then
    ((false, "Invalid Instagram URL format"), st, false)
  else
    match env.mediaPkRes with
    | .error pk_error =>
      ((false, "Failed to extract media PK from URL: " ++ pk_error.msg), st, false)
    | .ok media_pk =>
      match env.mediaInfoRes with
      | .ok media_info =>
        let r := routeAndDownload env cfg url download_folder st media_pk media_info false
        (r.1, r.2, false)
      | .error info_error =>
        if isValidationClass info_error then
          match create_minimal_media_info env media_pk url with
          | some media_info =>
            let r := routeAndDownload env cfg url download_folder st media_pk media_info true
            (r.1, r.2, true)
          | none =>
            ((false, "ValidationError: Could not parse metadata and fallback failed"), st, true)
        else
          ((false, "Failed to get media info: " ++ info_error.msg), st, false)

/-! ### General lemmas about the string helpers -/

theorem toList_append (a b : String) : (a ++ b).toList = a.toList ++ b.toList := by
  cases a; cases b; rfl

theorem strLower_toList (s : String) : (strLower s).toList = s.toList.map Char.toLower := rfl

theorem charsStarts_append {p s : List Char} (t : List Char)
    (h : charsStarts p s = true) : charsStarts p (s ++ t) = true := by
  induction p generalizing s with
  | nil => rfl
  | cons a as ih =>
    cases s with
    | nil => simp [charsStarts] at h
    | cons b bs =>
      simp only [charsStarts, Bool.and_eq_true] at h ⊢
      exact ⟨h.1, ih h.2⟩

theorem charsHas_append_left {p s : List Char} (t : List Char)
    (h : charsHas p s = true) : charsHas p (s ++ t) = true := by
  induction s with
  | nil =>
    simp only [charsHas] at h
    cases p with
    | nil => cases t <;> rfl
    | cons a as => simp [charsStarts] at h
  | cons c cs ih =>
    simp only [charsHas, Bool.or_eq_true] at h ⊢
    cases h with
    | inl h => exact Or.inl (charsStarts_append t h)
    | inr h => exact Or.inr (ih h)

theorem strHas_append_left (a b pat : String) (h : strHas a pat = true) :
    strHas (a ++ b) pat = true := by
  unfold strHas at h ⊢
  rw [toList_append]
  exact charsHas_append_left _ h

theorem strLower_append (a b : String) : strLower (a ++ b) = strLower a ++ strLower b := by
  cases a with | mk la =>
  cases b with | mk lb =>
  show String.mk (((la ++ lb)).map Char.toLower) = String.mk (la.map Char.toLower ++ lb.map Char.toLower)
  rw [List.map_append]

theorem append_ne_empty_left (s t : String) (h : s ≠ "") : s ++ t ≠ "" := by
  cases s with | mk d1 =>
  cases t with | mk d2 =>
  intro hc
  apply h
  have hd : d1 ++ d2 = [] := congrArg String.data hc
  have h1 : d1 = [] := by
    cases d1 with
    | nil => rfl
    | cons a as => simp at hd
  simp [h1]

/-! ### The retry engine: exhaustion and fatal short-circuit (claim C3) -/

theorem is_timeout_error_terminal (M : Nat) (e : PyError) :
    is_timeout_error (timeoutTerminalError M e) = true := by
  unfold is_timeout_error timeoutTerminalError timeout_keywords
  simp only [List.any_cons, Bool.or_eq_true]
  left
  show strHas (strLower ("Download timeout after " ++ (toString M ++ (" retries: " ++ e.msg)))) "timeout" = true
  rw [strLower_append]
  exact strHas_append_left _ _ _ (by decide)

theorem retryGo_cons {α} (op : Nat → Except PyError α) (N attempt : Nat)
    (rest : List Nat) (count : Nat) :
    retryGo op N (attempt :: rest) count =
      match op attempt with
      | .ok a => (.ok a, count + 1)
      | .error e =>
        if is_timeout_error e then
          if attempt < N - 1 then retryGo op N rest (count + 1)
          else (.error (timeoutTerminalError N e), count + 1)
        else (.error e, count + 1) := rfl

theorem retryGo_all_timeout {α} (op : Nat → Except PyError α) (N : Nat) (e : PyError) :
    ∀ len s count, s + len = N → 1 ≤ len →
      (∀ i, i < N → ∃ e', op i = .error e' ∧ is_timeout_error e' = true) →
      op (N - 1) = .error e →
      retryGo op N (List.range' s len) count =
        (.error (timeoutTerminalError N e), count + len) := by
  intro len
  induction len with
  | zero => intro s count _ h1; omega
  | succ k ih =>
    intro s count hsum _ hfail hlast
    obtain ⟨e', hop, hto⟩ := hfail s (by omega)
    rw [List.range'_succ s k 1, retryGo_cons, hop]
    cases k with
    | zero =>
      have hs : s = N - 1 := by omega
      have he : e' = e := by
        rw [hs] at hop
        rw [hop] at hlast
        exact Except.error.inj hlast
      subst he
      have hnot : ¬ (s < N - 1) := by omega
      simp [hto, if_neg hnot]
    | succ m =>
      have hlt : s < N - 1 := by omega
      simp only [hto, if_true, if_pos hlt]
      rw [ih (s + 1) (count + 1) (by omega) (by omega) hfail hlast]
      simp only [Prod.mk.injEq, true_and]
      omega

theorem retryGo_fatal {α} (op : Nat → Except PyError α) (N k : Nat) (e : PyError) :
    ∀ len s count, s + len = N → s ≤ k → k < s + len →
      (∀ i, i < k → ∃ e', op i = .error e' ∧ is_timeout_error e' = true) →
      op k = .error e → is_timeout_error e = false →
      retryGo op N (List.range' s len) count = (.error e, count + (k - s) + 1) := by
  intro len
  induction len with
  | zero => intro s count _ _ h2; omega
  | succ m ih =>
    intro s count hsum hsk hk hfail hop hto
    rcases Nat.eq_or_lt_of_le hsk with heq | hlt
    · subst heq
      rw [List.range'_succ s m 1, retryGo_cons, hop]
      simp [hto]
    · obtain ⟨e', hop', hto'⟩ := hfail s hlt
      have hslt : s < N - 1 := by omega
      rw [List.range'_succ s m 1, retryGo_cons, hop']
      simp only [hto', if_true, if_pos hslt]
      rw [ih (s + 1) (count + 1) (by omega) (by omega) (by omega) hfail hop hto]
      simp only [Prod.mk.injEq, true_and]
      omega

/-- C3: for every maxAttempts N ≥ 1, if every invocation fails with a
retryable (timeout/connection-class) error then the retry engine invokes
the operation exactly N times and raises the terminal timeout error —
itself timeout-classified, hence distinguishable from any fatal error;
and if an invocation fails with a non-retryable error (after any run of
retryable failures) that error is re-raised immediately, with exactly
k + 1 invocations performed, and it can never equal a terminal timeout
error. -/
theorem retry_engine_policy {α} (op : Nat → Except PyError α) (N : Nat) (hN : 1 ≤ N) :
    ((∀ i, i < N → ∃ e', op i = .error e' ∧ is_timeout_error e' = true) →
      ∀ e, op (N - 1) = .error e →
        retry_download_with_backoff op N = (.error (timeoutTerminalError N e), N) ∧
        is_timeout_error (timeoutTerminalError N e) = true) ∧
    (∀ k e, k < N →
      (∀ i, i < k → ∃ e', op i = .error e' ∧ is_timeout_error e' = true) →
      op k = .error e → is_timeout_error e = false →
        retry_download_with_backoff op N = (.error e, k + 1) ∧
        ∀ M e', e ≠ timeoutTerminalError M e') := by
  constructor
  · intro hfail e hlast
    constructor
    · unfold retry_download_with_backoff
      rw [List.range_eq_range' N]
      rw [retryGo_all_timeout op N e N 0 0 (by omega) hN hfail hlast]
      simp
    · exact is_timeout_error_terminal N e
  · intro k e hk hfail hop hto
    constructor
    · unfold retry_download_with_backoff
      rw [List.range_eq_range' N]
      rw [retryGo_fatal op N k e N 0 0 (by omega) (by omega) (by omega) hfail hop hto]
      simp
    · intro M e' hc
      rw [hc] at hto
      rw [is_timeout_error_terminal M e'] at hto
      simp at hto

/-- Witness for C3: a concrete always-timeout operation with N = 3 is
invoked exactly three times and yields the terminal error, and a concrete
first-attempt fatal error is re-raised after exactly one invocation. -/
theorem retry_engine_policy_witness :
    (retry_download_with_backoff (fun _ => (.error ⟨"ReadTimeout", "read timeout"⟩ : Except PyError Unit)) 3 =
      (.error (timeoutTerminalError 3 ⟨"ReadTimeout", "read timeout"⟩), 3)) ∧
    (retry_download_with_backoff (fun _ => (.error ⟨"ValueError", "bad value"⟩ : Except PyError Unit)) 3 =
      (.error ⟨"ValueError", "bad value"⟩, 1)) := by
  constructor
  · exact ((retry_engine_policy (fun _ => (.error ⟨"ReadTimeout", "read timeout"⟩ : Except PyError Unit)) 3 (by decide)).1
      (fun i _ => ⟨⟨"ReadTimeout", "read timeout"⟩, rfl, by decide⟩) _ rfl).1
  · exact ((retry_engine_policy (fun _ => (.error ⟨"ValueError", "bad value"⟩ : Except PyError Unit)) 3 (by decide)).2
      0 ⟨"ValueError", "bad value"⟩ (by decide) (fun i h => absurd h (Nat.not_lt_zero i)) rfl (by decide)).1

/-! ### URL extraction: order and de-duplication (claim C7) -/

/-- The truthy URL values of a version list, in upstream order. -/
def truthyUrls (vs : List VersionEntry) : List String :=
  vs.filterMap (fun v => match v.url with
    | none => none
    | some u => if u = "" then none else some u)

/-- The truthy URL values of all carousel items matching the target
media type, in upstream order. -/
def carouselUrls (target : Nat) (select : CarouselItem → List VersionEntry)
    (cs : List CarouselItem) : List String :=
  (cs.filter (fun c => c.media_type = target)).flatMap (fun c => truthyUrls (select c))

/-- The primary quality variants enumerated by the extraction's first
loop, in upstream order. -/
def primaryUrls (raw : RawData) (media_type : Nat) : List String :=
  match raw.items with
  | [] => []
  | m :: _ =>
    if media_type = 2 then truthyUrls m.video_versions else truthyUrls m.image_candidates

/-- The carousel URLs scanned by the extraction's second loop, in
upstream order (before de-duplication). -/
def carouselUrlsOf (raw : RawData) (media_type : Nat) : List String :=
  match raw.items with
  | [] => []
  | m :: _ =>
    if media_type = 2 then carouselUrls 2 CarouselItem.video_versions m.carousel_media
    else carouselUrls 1 CarouselItem.image_candidates m.carousel_media

theorem appendVersions_eq (vs : List VersionEntry) :
    ∀ acc, appendVersions vs acc = acc ++ truthyUrls vs := by
  induction vs with
  | nil => intro acc; simp [appendVersions, truthyUrls]
  | cons v rest ih =>
    intro acc
    cases hv : v.url with
    | none => simp [appendVersions, truthyUrls, hv, ih, List.filterMap_cons]
    | some u =>
      by_cases hu : u = ""
      · simp [appendVersions, truthyUrls, hv, hu, ih, List.filterMap_cons]
      · simp only [appendVersions, hv, if_neg hu, ih, truthyUrls, List.filterMap_cons]
        simp [hu, truthyUrls]

theorem appendVersionsDedup_decomp (vs : List VersionEntry) :
    ∀ acc, ∃ r, appendVersionsDedup vs acc = acc ++ r ∧
      r.Sublist (truthyUrls vs) ∧
      (acc.Nodup → (acc ++ r).Nodup) := by
  induction vs with
  | nil =>
    intro acc
    exact ⟨[], by simp [appendVersionsDedup], List.Sublist.refl _, by simp⟩
  | cons v rest ih =>
    intro acc
    cases hv : v.url with
    | none =>
      obtain ⟨r, h1, h2, h3⟩ := ih acc
      refine ⟨r, ?_, ?_, h3⟩
      · simp [appendVersionsDedup, hv, h1]
      · simpa [truthyUrls, List.filterMap_cons, hv] using h2
    | some u =>
      by_cases hu : u = ""
      · obtain ⟨r, h1, h2, h3⟩ := ih acc
        refine ⟨r, ?_, ?_, h3⟩
        · simp [appendVersionsDedup, hv, hu, h1]
        · simpa [truthyUrls, List.filterMap_cons, hv, hu] using h2
      · by_cases hc : acc.contains u = true
        · obtain ⟨r, h1, h2, h3⟩ := ih acc
          refine ⟨r, ?_, ?_, h3⟩
          · simp only [appendVersionsDedup, hv, if_neg hu, hc, if_true]
            exact h1
          · have hv' : truthyUrls (v :: rest) = u :: truthyUrls rest := by
              simp [truthyUrls, List.filterMap_cons, hv, hu]
            rw [hv']
            exact List.Sublist.cons u h2
        · obtain ⟨r, h1, h2, h3⟩ := ih (acc ++ [u])
          have hcf : acc.contains u = false := by
            cases hval : acc.contains u with
            | false => rfl
            | true => exact absurd hval hc
          refine ⟨u :: r, ?_, ?_, ?_⟩
          · simp only [appendVersionsDedup, hv, if_neg hu, hcf, if_false, h1]
            simp
          · have hv' : truthyUrls (v :: rest) = u :: truthyUrls rest := by
              simp [truthyUrls, List.filterMap_cons, hv, hu]
            rw [hv']
            exact List.Sublist.cons₂ u h2
          · intro hnd
            have hnmem : u ∉ acc := by simpa using hcf
            have hdisj : acc.Disjoint [u] := by
              intro a ha hmem
              rw [List.mem_singleton] at hmem
              subst hmem
              exact hnmem ha
            have hnd' : (acc ++ [u]).Nodup := by
              rw [List.nodup_append]
              exact ⟨hnd, List.nodup_singleton u, hdisj⟩
            have := h3 hnd'
            simpa using this

theorem appendCarousel_decomp (target : Nat) (select : CarouselItem → List VersionEntry)
    (cs : List CarouselItem) :
    ∀ acc, ∃ r, appendCarousel target select cs acc = acc ++ r ∧
      r.Sublist (carouselUrls target select cs) ∧
      (acc.Nodup → (acc ++ r).Nodup) := by
  induction cs with
  | nil =>
    intro acc
    exact ⟨[], by simp [appendCarousel], by simp [carouselUrls], by simp⟩
  | cons c rest ih =>
    intro acc
    by_cases hm : c.media_type = target
    · obtain ⟨r1, h1, h2, h3⟩ := appendVersionsDedup_decomp (select c) acc
      obtain ⟨r2, g1, g2, g3⟩ := ih (acc ++ r1)
      refine ⟨r1 ++ r2, ?_, ?_, ?_⟩
      · simp [appendCarousel, hm, h1, g1]
      · have hcar : carouselUrls target select (c :: rest) =
            truthyUrls (select c) ++ carouselUrls target select rest := by
          simp [carouselUrls, hm]
        rw [hcar]
        exact List.Sublist.append h2 g2
      · intro hnd
        have := g3 (h3 hnd)
        simpa [List.append_assoc] using this
    · obtain ⟨r, h1, h2, h3⟩ := ih acc
      refine ⟨r, ?_, ?_, h3⟩
      · simp [appendCarousel, hm, h1]
      · have hcar : carouselUrls target select (c :: rest) = carouselUrls target select rest := by
          simp [carouselUrls, hm]
        rw [hcar]
        exact h2

/-- C7 (amended): the candidate list is the primary quality variants
first, in upstream order and appended without de-duplication, followed by
matching carousel URLs in upstream order, each de-duplicated against all
URLs already collected; consequently the whole list is duplicate-free
whenever the primary variants are themselves pairwise distinct (but a URL
repeated among the primary variants does appear twice). -/
theorem extract_urls_order_and_dedup (raw : RawData) (media_type : Nat) :
    ∃ rest,
      extract_all_download_urls_from_raw_data raw media_type =
        primaryUrls raw media_type ++ rest ∧
      rest.Sublist (carouselUrlsOf raw media_type) ∧
      ((primaryUrls raw media_type).Nodup →
        (extract_all_download_urls_from_raw_data raw media_type).Nodup) := by
  cases hraw : raw.items with
  | nil =>
    refine ⟨[], ?_, ?_, ?_⟩ <;>
      simp [extract_all_download_urls_from_raw_data, primaryUrls, carouselUrlsOf, hraw]
  | cons m ms =>
    by_cases hmt : media_type = 2
    · obtain ⟨r, h1, h2, h3⟩ :=
        appendCarousel_decomp 2 CarouselItem.video_versions m.carousel_media
          (appendVersions m.video_versions [])
      refine ⟨r, ?_, ?_, ?_⟩
      · simp only [extract_all_download_urls_from_raw_data, primaryUrls, hraw, hmt, if_true, if_pos rfl]
        rw [h1, appendVersions_eq]
        simp
      · simpa [carouselUrlsOf, hraw, hmt] using h2
      · intro hnd
        simp only [extract_all_download_urls_from_raw_data, hraw, hmt, if_pos rfl]
        rw [h1]
        apply h3
        rw [appendVersions_eq]
        simpa [primaryUrls, hraw, hmt] using hnd
    · obtain ⟨r, h1, h2, h3⟩ :=
        appendCarousel_decomp 1 CarouselItem.image_candidates m.carousel_media
          (appendVersions m.image_candidates [])
      refine ⟨r, ?_, ?_, ?_⟩
      · simp only [extract_all_download_urls_from_raw_data, primaryUrls, hraw, hmt, if_false, if_neg hmt]
        rw [h1, appendVersions_eq]
        simp
      · simpa [carouselUrlsOf, hraw, hmt] using h2
      · intro hnd
        simp only [extract_all_download_urls_from_raw_data, hraw, if_neg hmt]
        rw [h1]
        apply h3
        rw [appendVersions_eq]
        simpa [primaryUrls, hraw, hmt] using hnd

/-- Counterexample to C7 as stated: a raw document whose primary
`video_versions` list carries the same URL twice yields a candidate list
containing that URL value twice — the primary loop performs no
de-duplication. -/
theorem extract_urls_duplicate_counterexample :
    extract_all_download_urls_from_raw_data ⟨[⟨[⟨some "u"⟩, ⟨some "u"⟩], [], []⟩]⟩ 2 =
      ["u", "u"] ∧
    ¬ (["u", "u"] : List String).Nodup := by
  constructor
  · rfl
  · decide

/-- Witness for C7 (amended): on a concrete document with one primary
variant and one matching carousel item repeating it, the amended theorem
yields a duplicate-free result. -/
theorem extract_urls_order_and_dedup_witness :
    (extract_all_download_urls_from_raw_data
      ⟨[⟨[⟨some "a"⟩], [], [⟨2, [⟨some "a"⟩, ⟨some "b"⟩], []⟩]⟩]⟩ 2).Nodup := by
  obtain ⟨r, _, _, h3⟩ :=
    extract_urls_order_and_dedup ⟨[⟨[⟨some "a"⟩], [], [⟨2, [⟨some "a"⟩, ⟨some "b"⟩], []⟩]⟩]⟩ 2
  exact h3 (by decide)

/-! ### Content-type classifier (claim C8) -/

/-- C8 (amended): the classifier returns one of exactly the four values
video, auto, story, unknown — `auto` (not `image`) being the value
for `/p/` URLs — and classifies every URL containing `/reel/` or `/tv/`
as video. -/
theorem content_type_classifier_range (url : String) :
    (get_content_type_from_url url = "video" ∨ get_content_type_from_url url = "auto" ∨
     get_content_type_from_url url = "story" ∨ get_content_type_from_url url = "unknown") ∧
    ((strHas (strLower url) "/reel/" = true ∨ strHas (strLower url) "/tv/" = true) →
      get_content_type_from_url url = "video") := by
  constructor
  · by_cases h1 : (strHas (strLower url) "/reel/" || strHas (strLower url) "/tv/") = true
    · exact Or.inl (by simp [get_content_type_from_url, h1])
    · by_cases h2 : strHas (strLower url) "/p/" = true
      · exact Or.inr (Or.inl (by simp [get_content_type_from_url, h1, h2]))
      · by_cases h3 : strHas (strLower url) "/stories/" = true
        · exact Or.inr (Or.inr (Or.inl (by simp [get_content_type_from_url, h1, h2, h3])))
        · exact Or.inr (Or.inr (Or.inr (by simp [get_content_type_from_url, h1, h2, h3])))
  · intro h
    have h1 : (strHas (strLower url) "/reel/" || strHas (strLower url) "/tv/") = true := by
      rcases h with h | h <;> simp [h]
    simp [get_content_type_from_url, h1]

/-- Witness for C8: a concrete `/reel/` URL is classified as video, and
a concrete `/stories/` URL falls in the four-value range. -/
theorem content_type_classifier_range_witness :
    get_content_type_from_url "https://www.instagram.com/reel/XYZ/" = "video" :=
  (content_type_classifier_range "https://www.instagram.com/reel/XYZ/").2 (Or.inl (by decide))

/-- Counterexample to C8 as stated: a `/p/` URL is classified `auto`,
which is none of the four claimed values video, image, story,
unknown. -/
theorem content_type_auto_counterexample :
    get_content_type_from_url "https://www.instagram.com/p/ABC/" = "auto" ∧
    (("auto" : String) ≠ "video" ∧ ("auto" : String) ≠ "image" ∧
     ("auto" : String) ≠ "story" ∧ ("auto" : String) ≠ "unknown") := by
  exact ⟨rfl, by decide⟩

/-! ### Fingerprint determinism (claim C9) -/

/-- C9 (amended): for any two reads that observe the same file bytes,
when those bytes decode as an image the combined hash is identical — it
is a function of the bytes alone, the clock being consulted only by the
exception path. -/
theorem hash_deterministic_on_decodable (fs1 fs2 : List (String × List Nat))
    (t1 t2 p1 p2 : String) (bs : List Nat)
    (h1 : lookupFS fs1 p1 = some bs) (h2 : lookupFS fs2 p2 = some bs)
    (hdec : (pilGrayPixels bs).isSome = true) :
    calculate_image_hash fs1 t1 p1 = calculate_image_hash fs2 t2 p2 := by
  unfold calculate_image_hash
  rw [h1, h2]
  cases hp : pilGrayPixels bs with
  | none => rw [hp] at hdec; simp at hdec
  | some px => simp [hp]

/-- Witness for C9 (amended): the same decodable byte string at two
different paths and two different clock readings hashes identically. -/
theorem hash_deterministic_on_decodable_witness :
    calculate_image_hash [("a.jpg", [5, 7])] "2024-01-01T00:00:00" "a.jpg" =
    calculate_image_hash [("dir/b.jpg", [5, 7])] "2025-06-30T10:11:12" "dir/b.jpg" :=
  hash_deterministic_on_decodable _ _ _ _ _ _ [5, 7] rfl rfl rfl

/-- Counterexample to C9 as stated: a file whose bytes PIL cannot decode
(the empty file) takes the exception path, whose hash embeds the current
timestamp — two calls over the identical on-disk state differ. -/
theorem hash_time_dependent_counterexample :
    calculate_image_hash [("a.jpg", [])] "2024-01-01T00:00:00" "a.jpg" ≠
    calculate_image_hash [("a.jpg", [])] "2024-01-01T00:00:01" "a.jpg" := by
  decide

/-! ### Queue drain failure handling (claim C4) -/

/-- C4 (amended): when the drain pass fails to process a flagged file,
the flag is rewritten in place with `processed = true` and the error
recorded — not deleted in that pass — and the item was handed to the
processor exactly once; any subsequent drain pass never hands the item
to the processor again: it removes the already-marked flag without a
processing call. -/
theorem queue_failure_flag_policy (outcome : String → Bool × String)
    (files : List String) (flag_file : String) (fd : FlagData)
    (hproc : fd.processed = false)
    (hex : files.contains fd.file_path = true)
    (hfail : (outcome fd.file_path).1 = false) :
    drainPass outcome files [(flag_file, fd)] =
      ([(flag_file, { fd with processed := true,
                              processing_error := some (outcome fd.file_path).2 })],
       [fd.file_path]) ∧
    ∀ (outcome2 : String → Bool × String) (files2 : List String),
      drainPass outcome2 files2
        [(flag_file, { fd with processed := true,
                               processing_error := some (outcome fd.file_path).2 })] =
      ([], []) := by
  have hmem : fd.file_path ∈ files := by simpa using hex
  constructor
  · simp [drainPass, hproc, hex, hfail, hmem]
  · intro outcome2 files2
    simp [drainPass]

/-- Witness for C4 (amended): a concrete failing item is marked
`processed = true` with the error text, survives the failing pass, and
the next pass removes it with zero processing calls. -/
theorem queue_failure_flag_policy_witness :
    (drainPass (fun _ => (false, "Analysis failed")) ["input_videos/v.mp4"]
        [("flag.json", ⟨"input_videos/v.mp4", "u", some "1", 2, false, none⟩)] =
      ([("flag.json", ⟨"input_videos/v.mp4", "u", some "1", 2, true, some "Analysis failed"⟩)],
       ["input_videos/v.mp4"])) ∧
    drainPass (fun _ => (false, "other")) []
        [("flag.json", ⟨"input_videos/v.mp4", "u", some "1", 2, true, some "Analysis failed"⟩)] =
      ([], []) := by
  have h := queue_failure_flag_policy (fun _ => (false, "Analysis failed"))
    ["input_videos/v.mp4"] "flag.json" ⟨"input_videos/v.mp4", "u", some "1", 2, false, none⟩
    rfl rfl rfl
  exact ⟨h.1, h.2 (fun _ => (false, "other")) []⟩

/-- Counterexample to C4 as stated: the claim says no later drain pass
deletes the rewritten flag, but running the pass again on the surviving
flag (now `processed = true`) deletes it from disk — while handing
nothing to the processor. -/
theorem queue_flag_deleted_by_second_pass_counterexample :
    drainPass (fun _ => (false, "x")) ["input_videos/v.mp4"]
      [("flag.json", ⟨"input_videos/v.mp4", "u", some "1", 2, true, some "Analysis failed"⟩)] =
    ([], []) := by
  decide

/-! ### Deduplication of identical files (claim C2) -/

theorem removeFS_lookup_ne (fs : List (String × List Nat)) (p q : String) (h : p ≠ q) :
    lookupFS (removeFS fs p) q = lookupFS fs q := by
  induction fs with
  | nil => rfl
  | cons kv rest ih =>
    obtain ⟨k, v⟩ := kv
    by_cases hk : k = p
    · have hkq : ¬ k = q := by rw [hk]; exact h
      simp only [removeFS, if_pos hk, lookupFS, if_neg hkq, ih]
    · simp only [removeFS, if_neg hk, lookupFS, ih]

theorem removeFS_lookup_self (fs : List (String × List Nat)) (p : String) :
    lookupFS (removeFS fs p) p = none := by
  induction fs with
  | nil => rfl
  | cons kv rest ih =>
    obtain ⟨k, v⟩ := kv
    by_cases hk : k = p
    · simp only [removeFS, if_pos hk, ih]
    · simp only [removeFS, if_neg hk, lookupFS, if_neg hk, ih]

theorem setCache_lookup_self (c : List (String × HashRec)) (h : String) (r : HashRec) :
    lookupCache (setCache c h r) h = some r := by
  induction c with
  | nil => simp [setCache, lookupCache]
  | cons kv rest ih =>
    obtain ⟨k, v⟩ := kv
    by_cases hk : k = h
    · simp [setCache, if_pos hk, lookupCache]
    · simp only [setCache, if_neg hk, lookupCache, if_neg hk, ih]

theorem validate_image_ok (env : ProcEnv) (fs : List (String × List Nat)) (p : String)
    (bs : List Nat)
    (hext : SUPPORTED_IMAGE_FORMATS.contains (strLower (suffixOf p)) = true)
    (hl : lookupFS fs p = some bs)
    (hsize : ¬ bs.length > 10 * 1024 * 1024)
    (hdec : (pilGrayPixels bs).isSome = true) :
    validate_file env fs p = (true, "image") := by
  have hmem : strLower (suffixOf p) ∈ SUPPORTED_IMAGE_FORMATS := by simpa using hext
  unfold validate_file
  simp [hmem, hl, hsize, hdec]

theorem calculate_image_hash_decodable (fs : List (String × List Nat))
    (now p : String) (bs px : List Nat)
    (hl : lookupFS fs p = some bs) (hdec : pilGrayPixels bs = some px) :
    calculate_image_hash fs now p = combinedHashOf bs px := by
  unfold calculate_image_hash
  simp only [hl, hdec]

/-- The success path of `process_single_file` on a fresh image: analyze,
persist, store the fingerprint with `duplicate_count = 0`, delete the
original. -/
theorem process_single_file_fresh_image (env : ProcEnv) (st : ProcState)
    (p cp : String) (bs px : List Nat)
    (hv : validate_file env st.fs p = (true, "image"))
    (hh : calculate_image_hash st.fs env.now p = combinedHashOf bs px)
    (hfresh : lookupCache st.cache (combinedHashOf bs px) = none)
    (hcp : env.compress p = some cp)
    (hcat : (env.analyze cp).category ≠ "Error")
    (hsave : env.saveOk (fileName p) = true) :
    process_single_file env st p =
      ((true, "Image processed - analysis saved (no image stored)"),
       ⟨removeFS st.fs p,
        setCache st.cache (combinedHashOf bs px)
          ⟨fileName p, (env.analyze cp).category, (env.analyze cp).confidence,
           (env.analyze cp).summary, env.now, none, 0⟩,
        st.saved ++ [fileName p]⟩) := by
  simp [process_single_file, hv, hh, is_duplicate, hfresh, process_image_with_hash,
        hcp, hcat, hsave, store_hash]

/-- The duplicate path of `process_single_file`: the stored record is
returned, its counter bumped, the new file deleted, nothing analyzed or
persisted. -/
theorem process_single_file_duplicate_image (env : ProcEnv) (st : ProcState)
    (p K : String) (rec : HashRec)
    (hv : validate_file env st.fs p = (true, "image"))
    (hh : calculate_image_hash st.fs env.now p = K)
    (hit : lookupCache st.cache K = some rec) :
    process_single_file env st p =
      ((true, "Duplicate detected - skipped (original: " ++ rec.original_filename ++ ")"),
       ⟨removeFS st.fs p,
        setCache st.cache K { rec with duplicate_count := rec.duplicate_count + 1,
                                       last_seen := some env.now },
        st.saved⟩) := by
  simp [process_single_file, hv, hh, is_duplicate, hit, increment_duplicate_count]

/-- C2: two image files with identical bytes processed in sequence —
the first succeeding end-to-end, its fingerprint fresh in the store —
make the second call report a duplicate: the duplicate check returns
true together with the first file's stored record (whose
duplicate_count is 0), the stored counter is incremented from 0 to 1,
the second file is deleted from disk immediately, and nothing new is
analyzed or persisted by the second call. -/
theorem duplicate_second_file_policy (env env2 : ProcEnv) (st : ProcState)
    (p1 p2 cp : String) (bs px : List Nat)
    (h1 : lookupFS st.fs p1 = some bs) (h2 : lookupFS st.fs p2 = some bs)
    (hne : p1 ≠ p2)
    (hext1 : SUPPORTED_IMAGE_FORMATS.contains (strLower (suffixOf p1)) = true)
    (hext2 : SUPPORTED_IMAGE_FORMATS.contains (strLower (suffixOf p2)) = true)
    (hsize : ¬ bs.length > 10 * 1024 * 1024)
    (hdec : pilGrayPixels bs = some px)
    (hcp : env.compress p1 = some cp)
    (hcat : (env.analyze cp).category ≠ "Error")
    (hsave : env.saveOk (fileName p1) = true)
    (hfresh : lookupCache st.cache (combinedHashOf bs px) = none) :
    ∃ st1 rec,
      process_single_file env st p1 =
        ((true, "Image processed - analysis saved (no image stored)"), st1) ∧
      lookupCache st1.cache (combinedHashOf bs px) = some rec ∧
      rec.original_filename = fileName p1 ∧ rec.duplicate_count = 0 ∧
      is_duplicate st1.cache (calculate_image_hash st1.fs env2.now p2) = (true, some rec) ∧
      ∃ st2,
        process_single_file env2 st1 p2 =
          ((true, "Duplicate detected - skipped (original: " ++ fileName p1 ++ ")"), st2) ∧
        (∃ rec2, lookupCache st2.cache (combinedHashOf bs px) = some rec2 ∧
          rec2.duplicate_count = rec.duplicate_count + 1) ∧
        lookupFS st2.fs p2 = none ∧
        st2.saved = st1.saved := by
  have hdec' : (pilGrayPixels bs).isSome = true := by rw [hdec]; rfl
  have hv1 : validate_file env st.fs p1 = (true, "image") :=
    validate_image_ok env st.fs p1 bs hext1 h1 hsize hdec'
  have hh1 : calculate_image_hash st.fs env.now p1 = combinedHashOf bs px :=
    calculate_image_hash_decodable st.fs env.now p1 bs px h1 hdec
  refine ⟨⟨removeFS st.fs p1,
           setCache st.cache (combinedHashOf bs px)
             ⟨fileName p1, (env.analyze cp).category, (env.analyze cp).confidence,
              (env.analyze cp).summary, env.now, none, 0⟩,
           st.saved ++ [fileName p1]⟩,
         ⟨fileName p1, (env.analyze cp).category, (env.analyze cp).confidence,
          (env.analyze cp).summary, env.now, none, 0⟩,
         process_single_file_fresh_image env st p1 cp bs px hv1 hh1 hfresh hcp hcat hsave,
         setCache_lookup_self _ _ _, rfl, rfl, ?_, ?_⟩
  · have hfs1 : lookupFS (removeFS st.fs p1) p2 = some bs := by
      rw [removeFS_lookup_ne st.fs p1 p2 hne]
      exact h2
    have hh2 : calculate_image_hash (removeFS st.fs p1) env2.now p2 = combinedHashOf bs px :=
      calculate_image_hash_decodable _ env2.now p2 bs px hfs1 hdec
    show is_duplicate _ _ = _
    rw [hh2]
    unfold is_duplicate
    rw [setCache_lookup_self]
  · have hfs1 : lookupFS (removeFS st.fs p1) p2 = some bs := by
      rw [removeFS_lookup_ne st.fs p1 p2 hne]
      exact h2
    have hh2 : calculate_image_hash (removeFS st.fs p1) env2.now p2 = combinedHashOf bs px :=
      calculate_image_hash_decodable _ env2.now p2 bs px hfs1 hdec
    have hv2 : validate_file env2 (removeFS st.fs p1) p2 = (true, "image") :=
      validate_image_ok env2 _ p2 bs hext2 hfs1 hsize hdec'
    refine ⟨⟨removeFS (removeFS st.fs p1) p2, _, st.saved ++ [fileName p1]⟩,
            process_single_file_duplicate_image env2 _ p2 (combinedHashOf bs px) _
              hv2 hh2 (setCache_lookup_self _ _ _), ⟨_, setCache_lookup_self _ _ _, rfl⟩,
            removeFS_lookup_self _ _, rfl⟩

/-- Witness for C2: a concrete two-file run on identical bytes. -/
theorem duplicate_second_file_policy_witness :
    ∃ (st1 : ProcState) (rec : HashRec),
      process_single_file
        ⟨"T0", fun _ => true, fun _ => some "tmp/c.jpg",
         fun _ => ⟨"Business", "0.9", "sum"⟩, fun _ => true, fun _ => (false, "n/a")⟩
        ⟨[("a.jpg", [3, 1]), ("b.jpg", [3, 1])], [], []⟩ "a.jpg" =
        ((true, "Image processed - analysis saved (no image stored)"), st1) ∧
      rec.original_filename = fileName "a.jpg" ∧
      ∃ st2,
        process_single_file
          ⟨"T1", fun _ => true, fun _ => some "tmp/c.jpg",
           fun _ => ⟨"Business", "0.9", "sum"⟩, fun _ => true, fun _ => (false, "n/a")⟩
          st1 "b.jpg" =
          ((true, "Duplicate detected - skipped (original: " ++ fileName "a.jpg" ++ ")"), st2) ∧
        lookupFS st2.fs "b.jpg" = none := by
  obtain ⟨st1, rec, hfirst, _, horig, _, _, st2, hsecond, _, hgone, _⟩ :=
    duplicate_second_file_policy
      ⟨"T0", fun _ => true, fun _ => some "tmp/c.jpg",
       fun _ => ⟨"Business", "0.9", "sum"⟩, fun _ => true, fun _ => (false, "n/a")⟩
      ⟨"T1", fun _ => true, fun _ => some "tmp/c.jpg",
       fun _ => ⟨"Business", "0.9", "sum"⟩, fun _ => true, fun _ => (false, "n/a")⟩
      ⟨[("a.jpg", [3, 1]), ("b.jpg", [3, 1])], [], []⟩
      "a.jpg" "b.jpg" "tmp/c.jpg" [3, 1] (([3, 1] ++ List.replicate 64 0).take 64)
      rfl rfl (by decide) (by decide) (by decide) (by decide) (by decide) rfl
      (by decide) rfl rfl
  exact ⟨st1, rec, hfirst, horig, st2, hsecond, hgone⟩


/-! ### The fallback download run (claims C1, C10) -/

/-- Flag-file lookup, for stating what the queue contains. -/
def lookupFlag : List (String × FlagData) → String → Option FlagData
  | [], _ => none
  | (k, v) :: rest, f => if k = f then some v else lookupFlag rest f

theorem setFlag_lookup_self (l : List (String × FlagData)) (f : String) (d : FlagData) :
    lookupFlag (setFlag l f d) f = some d := by
  induction l with
  | nil => simp [setFlag, lookupFlag]
  | cons kv rest ih =>
    obtain ⟨k, v⟩ := kv
    by_cases hk : k = f
    · simp [setFlag, if_pos hk, lookupFlag]
    · simp only [setFlag, if_neg hk, lookupFlag, if_neg hk, ih]

theorem download_with_url_fallbacks_eq (a : String → Bool) (urls : List String)
    (fp : FPath) (files : List FPath) :
    download_with_url_fallbacks a urls fp files =
      (if urls.any a then (true, fp :: files) else (false, files)) := by
  induction urls with
  | nil => simp [download_with_url_fallbacks]
  | cons u rest ih =>
    by_cases hu : a u = true
    · simp [download_with_url_fallbacks, hu]
    · simp [download_with_url_fallbacks, hu, ih]

/-- The raw-protocol fallback, on an environment whose raw metadata is
available and one of whose extracted candidate URLs transfers
successfully, downloads the video to
`<folder>/instagram_<pk>.mp4` and reports the dedicated fallback
message. -/
theorem fallback_download_direct_success (env : DlEnv) (pk folder : String)
    (raw : RawData)
    (hraw : env.rawMediaData = some raw)
    (hany : (extract_all_download_urls_from_raw_data raw 2).any env.attemptUrl = true) :
    fallback_download_direct env pk 2 folder files =
      (.ok ("Downloaded via raw API fallback: " ++ ("instagram_" ++ pk ++ ".mp4"),
            ⟨folder, "instagram_" ++ pk ++ ".mp4"⟩),
       (⟨folder, "instagram_" ++ pk ++ ".mp4"⟩ : FPath) :: files) := by
  have hne : extract_all_download_urls_from_raw_data raw 2 ≠ [] := by
    intro hc
    rw [hc] at hany
    simp at hany
  unfold fallback_download_direct
  rw [hraw]
  simp only [if_neg hne]
  rw [download_with_url_fallbacks_eq]
  simp [hany]

/-- The complete run behind the end-to-end scenario: a `/reel/` URL, an
active session, a validation-class metadata failure, and a raw-protocol
fallback that succeeds.  The downloaded file and the flag-write attempt
are captured exactly; the returned message comes from line 929
(`"Downloaded: {name}"`), the fallback's own message being discarded by
the caller at line 832. -/
theorem reel_fallback_run (env : DlEnv) (cfg : DlCfg) (url : String) (st : DlState)
    (pk : String) (e : PyError) (raw : RawData)
    (hclient : env.clientAvailable = true)
    (hsession : env.sessionActive = true)
    (hvalid : validate_instagram_url url = true)
    (hpk : env.mediaPkRes = .ok pk)
    (hinfo : env.mediaInfoRes = .error e)
    (hic : isValidationClass e = true)
    (hreel : strHas url "/reel/" = true)
    (hminimal : env.minimalInfoFails = false)
    (hmkdir : env.mkdirErr = none)
    (hraw : env.rawMediaData = some raw)
    (hany : (extract_all_download_urls_from_raw_data raw 2).any env.attemptUrl = true) :
    download_single_reel env cfg url none st =
      ((true, "Downloaded: " ++ ("instagram_" ++ pk ++ ".mp4")),
       trigger_content_processing env ⟨cfg.VIDEO_FOLDER, "instagram_" ++ pk ++ ".mp4"⟩
         url ⟨pk, 2, true⟩
         ⟨(⟨cfg.VIDEO_FOLDER, "instagram_" ++ pk ++ ".mp4"⟩ : FPath) :: st.files, st.flags⟩,
       true) := by
  have hmi : create_minimal_media_info env pk url = some ⟨pk, 2, true⟩ := by
    unfold create_minimal_media_info detect_media_type_fallback
    simp [hminimal, hreel]
  unfold download_single_reel
  rw [hclient, hsession, hvalid, hpk, hinfo]
  simp only [Bool.not_true, Bool.false_and, Bool.false_eq_true, if_false, hic, if_true]
  rw [hmi]
  unfold routeAndDownload
  rw [hmkdir]
  simp only [if_true, if_pos rfl]
  rw [fallback_download_direct_success env pk cfg.VIDEO_FOLDER raw hraw hany]
  unfold verifyAndQueue
  simp [List.contains]

/-- C1 (amended): in the end-to-end fallback scenario — a `/reel/` URL,
a validation-class metadata failure, reconstruction with video type, and
a raw-protocol fallback that succeeds — `download_single_reel` returns
success, the file `instagram_<pk>.mp4` is in the video folder, and the
processing flag referencing it is written; but the returned message is
`"Downloaded: instagram_<pk>.mp4"` — the fallback's internal
`"Downloaded via raw API fallback: ..."` message is built at line 1090
and then discarded by the caller, which rebuilds the message at
line 929. -/
theorem reel_fallback_scenario (env : DlEnv) (cfg : DlCfg) (url : String) (st : DlState)
    (pk : String) (e : PyError) (raw : RawData)
    (hclient : env.clientAvailable = true)
    (hsession : env.sessionActive = true)
    (hvalid : validate_instagram_url url = true)
    (hpk : env.mediaPkRes = .ok pk)
    (hinfo : env.mediaInfoRes = .error e)
    (hic : isValidationClass e = true)
    (hreel : strHas url "/reel/" = true)
    (hminimal : env.minimalInfoFails = false)
    (hmkdir : env.mkdirErr = none)
    (hraw : env.rawMediaData = some raw)
    (hany : (extract_all_download_urls_from_raw_data raw 2).any env.attemptUrl = true)
    (hflag : env.flagWriteFails = false) :
    download_single_reel env cfg url none st =
      ((true, "Downloaded: " ++ ("instagram_" ++ pk ++ ".mp4")),
       ⟨(⟨cfg.VIDEO_FOLDER, "instagram_" ++ pk ++ ".mp4"⟩ : FPath) :: st.files,
        setFlag st.flags
          (cfg.VIDEO_FOLDER ++ "/.processing_" ++ stemOf ("instagram_" ++ pk ++ ".mp4") ++ ".json")
          ⟨cfg.VIDEO_FOLDER ++ "/" ++ ("instagram_" ++ pk ++ ".mp4"), url, some pk, 2, false, none⟩⟩,
       true) := by
  rw [reel_fallback_run env cfg url st pk e raw hclient hsession hvalid hpk hinfo hic
      hreel hminimal hmkdir hraw hany]
  unfold trigger_content_processing
  simp [hflag, FPath.str]

/-- A concrete environment realizing the end-to-end fallback scenario:
metadata fails with a Pydantic validation error, the raw document
carries one video candidate URL, and the transfer succeeds. -/
def c1Env : DlEnv where
  clientAvailable := true
  sessionActive := true
  setupSessionResult := (true, "ok")
  mediaPkRes := .ok "12345"
  mediaInfoRes := .error ⟨"ValidationError", "1 validation error for Media"⟩
  probeVideoOk := false
  probePhotoOk := false
  minimalInfoFails := false
  mkdirErr := none
  rawMediaData := some ⟨[⟨[⟨some "https://cdn.example/v1.mp4"⟩], [], []⟩]⟩
  attemptUrl := fun _ => true
  videoDownload := fun _ => .error ⟨"RuntimeError", "not used"⟩
  photoDownload := fun _ => .error ⟨"RuntimeError", "not used"⟩
  flagWriteFails := false

/-- Witness for C1 (amended): the scenario theorem applied to the
concrete environment. -/
theorem reel_fallback_scenario_witness :
    download_single_reel c1Env ⟨"input_videos", "input_images", 3⟩
        "https://www.instagram.com/reel/ABC123/" none ⟨[], []⟩ =
      ((true, "Downloaded: " ++ ("instagram_" ++ "12345" ++ ".mp4")),
       ⟨[⟨"input_videos", "instagram_" ++ "12345" ++ ".mp4"⟩],
        setFlag []
          ("input_videos" ++ "/.processing_" ++ stemOf ("instagram_" ++ "12345" ++ ".mp4") ++ ".json")
          ⟨"input_videos" ++ "/" ++ ("instagram_" ++ "12345" ++ ".mp4"),
           "https://www.instagram.com/reel/ABC123/", some "12345", 2, false, none⟩⟩,
       true) :=
  reel_fallback_scenario c1Env ⟨"input_videos", "input_images", 3⟩
    "https://www.instagram.com/reel/ABC123/" ⟨[], []⟩ "12345"
    ⟨"ValidationError", "1 validation error for Media"⟩
    ⟨[⟨[⟨some "https://cdn.example/v1.mp4"⟩], [], []⟩]⟩
    rfl rfl (by decide) rfl rfl (by decide) (by decide) rfl rfl rfl (by decide) rfl

/-- Counterexample to C1 as stated: in the concrete scenario the raw
fallback routine itself produces the message claimed by the spec, but
`download_single_reel` discards it and returns
`"Downloaded: instagram_12345.mp4"` instead. -/
theorem reel_fallback_message_counterexample :
    (download_single_reel c1Env ⟨"input_videos", "input_images", 3⟩
        "https://www.instagram.com/reel/ABC123/" none ⟨[], []⟩).1 =
      (true, "Downloaded: instagram_12345.mp4") ∧
    (fallback_download_direct c1Env "12345" 2 "input_videos" []).1 =
      .ok ("Downloaded via raw API fallback: instagram_12345.mp4",
           ⟨"input_videos", "instagram_12345.mp4"⟩) ∧
    ("Downloaded: instagram_12345.mp4" : String) ≠
      "Downloaded via raw API fallback: instagram_12345.mp4" :=
  ⟨rfl, rfl, by decide⟩

/-! ### Reconstruction activation (claim C6) -/

theorem recon_flag_ready (env : DlEnv) (cfg : DlCfg) (url : String)
    (fo : Option String) (st : DlState)
    (hca : env.clientAvailable = true)
    (hready : (!env.sessionActive && !(env.setupSessionResult).1) = false) :
    (download_single_reel env cfg url fo st).2.2 =
      (validate_instagram_url url &&
       (match env.mediaPkRes with | .ok _ => true | .error _ => false) &&
       (match env.mediaInfoRes with
        | .error e => isValidationClass e
        | .ok _ => false)) := by
  unfold download_single_reel
  rw [hca, hready]
  cases hv : validate_instagram_url url with
  | false => simp [hv]
  | true =>
    cases hpk : env.mediaPkRes with
    | error pe => simp [hv, hpk]
    | ok pk =>
      cases hmi : env.mediaInfoRes with
      | ok mi => simp [hv, hpk, hmi]
      | error e =>
        cases hic : isValidationClass e with
        | false => simp [hv, hpk, hmi, hic]
        | true =>
          cases hmin : create_minimal_media_info env pk url with
          | none => simp [hv, hpk, hmi, hic, hmin]
          | some mi => simp [hv, hpk, hmi, hic, hmin]

theorem recon_flag_eq (env : DlEnv) (cfg : DlCfg) (url : String)
    (fo : Option String) (st : DlState) :
    (download_single_reel env cfg url fo st).2.2 =
      (env.clientAvailable &&
       (env.sessionActive || (env.setupSessionResult).1) &&
       validate_instagram_url url &&
       (match env.mediaPkRes with | .ok _ => true | .error _ => false) &&
       (match env.mediaInfoRes with
        | .error e => isValidationClass e
        | .ok _ => false)) := by
  cases hca : env.clientAvailable with
  | false =>
    unfold download_single_reel
    simp [hca]
  | true =>
    cases hsa : env.sessionActive with
    | true =>
      rw [recon_flag_ready env cfg url fo st hca (by simp [hsa])]
      simp [hca, hsa]
    | false =>
      cases hsu : (env.setupSessionResult).1 with
      | true =>
        rw [recon_flag_ready env cfg url fo st hca (by simp [hsu])]
        simp [hca, hsa, hsu]
      | false =>
        unfold download_single_reel
        simp [hca, hsa, hsu]

/-- C6: the reconstruction fallback (`_create_minimal_media_info`) is
activated if and only if the call reaches the metadata stage and the
metadata call fails with a validation-class error; any other metadata
failure — not-found, rate limit, network — never activates
reconstruction, and when the stage is reached it makes the call return
failure with the metadata error surfaced. -/
theorem reconstruction_iff_validation_class (env : DlEnv) (cfg : DlCfg) (url : String)
    (fo : Option String) (st : DlState) :
    ((download_single_reel env cfg url fo st).2.2 = true ↔
      (env.clientAvailable = true ∧
       (env.sessionActive = true ∨ (env.setupSessionResult).1 = true) ∧
       validate_instagram_url url = true ∧
       (∃ pk, env.mediaPkRes = .ok pk) ∧
       (∃ e, env.mediaInfoRes = .error e ∧ isValidationClass e = true))) ∧
    (∀ e, env.mediaInfoRes = .error e → isValidationClass e = false →
      (download_single_reel env cfg url fo st).2.2 = false ∧
      (env.clientAvailable = true →
       (env.sessionActive = true ∨ (env.setupSessionResult).1 = true) →
       validate_instagram_url url = true →
       ∀ pk, env.mediaPkRes = .ok pk →
       download_single_reel env cfg url fo st =
         ((false, "Failed to get media info: " ++ e.msg), st, false))) := by
  constructor
  · rw [recon_flag_eq]
    cases hpk : env.mediaPkRes <;> cases hmi : env.mediaInfoRes <;>
      simp [hpk, hmi, and_assoc]
  · intro e hmi hic
    constructor
    · rw [recon_flag_eq]
      simp [hmi, hic]
    · intro hca hsess hv pk hpk
      have hready : (!env.sessionActive && !(env.setupSessionResult).1) = false := by
        rcases hsess with h | h <;> simp [h]
      unfold download_single_reel
      rw [hca, hready, hv, hpk, hmi]
      simp [hic]

/-- A concrete environment whose metadata call fails with a not-found
error (a content-state error, not validation-class). -/
def c6Env : DlEnv where
  clientAvailable := true
  sessionActive := true
  setupSessionResult := (true, "ok")
  mediaPkRes := .ok "777"
  mediaInfoRes := .error ⟨"MediaNotFound", "Media not found"⟩
  probeVideoOk := false
  probePhotoOk := false
  minimalInfoFails := false
  mkdirErr := none
  rawMediaData := none
  attemptUrl := fun _ => false
  videoDownload := fun _ => .error ⟨"RuntimeError", "not used"⟩
  photoDownload := fun _ => .error ⟨"RuntimeError", "not used"⟩
  flagWriteFails := false

/-- Witness for C6: a concrete not-found metadata failure never
activates reconstruction and surfaces the metadata error. -/
theorem reconstruction_iff_validation_class_witness :
    (download_single_reel c6Env ⟨"input_videos", "input_images", 3⟩
        "https://www.instagram.com/reel/ABC123/" none ⟨[], []⟩).2.2 = false ∧
    download_single_reel c6Env ⟨"input_videos", "input_images", 3⟩
        "https://www.instagram.com/reel/ABC123/" none ⟨[], []⟩ =
      ((false, "Failed to get media info: " ++ "Media not found"), ⟨[], []⟩, false) := by
  have h := (reconstruction_iff_validation_class c6Env ⟨"input_videos", "input_images", 3⟩
      "https://www.instagram.com/reel/ABC123/" none ⟨[], []⟩).2
    ⟨"MediaNotFound", "Media not found"⟩ rfl (by decide)
  exact ⟨h.1, h.2 rfl (Or.inl rfl) (by decide) "777" rfl⟩

/-! ### Flag-write failure tolerance (claim C10) -/

theorem trigger_flags_fail (env : DlEnv) (hf : env.flagWriteFails = true)
    (fp : FPath) (u : String) (mi : MediaInfo) (st : DlState) :
    trigger_content_processing env fp u mi st = st := by
  simp [trigger_content_processing, hf]

theorem verifyAndQueue_flags_fail (env : DlEnv) (st : DlState) (dp : FPath)
    (mi : MediaInfo) (url : String) (hf : env.flagWriteFails = true) :
    (verifyAndQueue env st dp mi url).2.flags = st.flags := by
  unfold verifyAndQueue
  split
  · rw [trigger_flags_fail env hf]
  · rfl

theorem normalDownload_flags_fail (env : DlEnv) (st : DlState) (mi : MediaInfo)
    (url folder safe ext kind : String) (op : Nat → Except PyError (Option FPath))
    (attempts : Nat) (pk : String) (hf : env.flagWriteFails = true) :
    (normalDownload env st mi url folder safe ext kind op attempts pk).2.flags = st.flags := by
  unfold normalDownload
  dsimp only
  cases hres : (retry_download_with_backoff op attempts).1 with
  | error e => rfl
  | ok dfo =>
    cases dfo with
    | some df =>
      dsimp only
      split
      · split
        · exact verifyAndQueue_flags_fail env _ _ _ _ hf
        · exact verifyAndQueue_flags_fail env _ _ _ _ hf
      · split
        · rfl
        · exact verifyAndQueue_flags_fail env _ _ _ _ hf
    | none =>
      dsimp only
      split
      · rfl
      · exact verifyAndQueue_flags_fail env _ _ _ _ hf

theorem routeAndDownload_flags_fail (env : DlEnv) (cfg : DlCfg) (url : String)
    (fo : Option String) (st : DlState) (pk : String) (mi : MediaInfo)
    (ufb : Bool) (hf : env.flagWriteFails = true) :
    (routeAndDownload env cfg url fo st pk mi ufb).2.flags = st.flags := by
  unfold routeAndDownload
  dsimp only
  split
  · rfl
  · split
    · split
      · rfl
      · exact verifyAndQueue_flags_fail env _ _ _ _ hf
    · split
      · exact normalDownload_flags_fail env _ _ _ _ _ _ _ _ _ _ hf
      · exact normalDownload_flags_fail env _ _ _ _ _ _ _ _ _ _ hf

theorem download_single_reel_flags_fail (env : DlEnv) (cfg : DlCfg) (url : String)
    (fo : Option String) (st : DlState) (hf : env.flagWriteFails = true) :
    (download_single_reel env cfg url fo st).2.1.flags = st.flags := by
  unfold download_single_reel
  split
  · rfl
  · split
    · rfl
    · split
      · rfl
      · split
        · rfl
        · split
          · exact routeAndDownload_flags_fail env cfg url fo st _ _ _ hf
          · split
            · split
              · exact routeAndDownload_flags_fail env cfg url fo st _ _ _ hf
              · rfl
            · rfl

/-- C10: when writing the processing flag fails, the error is swallowed
inside `_trigger_content_processing` — no flag is ever recorded on any
path — and in the fallback scenario the download still returns success;
a successful result therefore does not guarantee a flag exists. -/
theorem flag_write_failure_policy (env : DlEnv) (cfg : DlCfg) (url : String)
    (fo : Option String) (st : DlState) (pk : String) (e : PyError) (raw : RawData)
    (hf : env.flagWriteFails = true) :
    (download_single_reel env cfg url fo st).2.1.flags = st.flags ∧
    (env.clientAvailable = true → env.sessionActive = true →
     validate_instagram_url url = true → env.mediaPkRes = .ok pk →
     env.mediaInfoRes = .error e → isValidationClass e = true →
     strHas url "/reel/" = true → env.minimalInfoFails = false →
     env.mkdirErr = none → env.rawMediaData = some raw →
     (extract_all_download_urls_from_raw_data raw 2).any env.attemptUrl = true →
     (download_single_reel env cfg url none st).1 =
       (true, "Downloaded: " ++ ("instagram_" ++ pk ++ ".mp4")) ∧
     (download_single_reel env cfg url none st).2.1.flags = st.flags) := by
  refine ⟨download_single_reel_flags_fail env cfg url fo st hf, ?_⟩
  intro hclient hsession hvalid hpk hinfo hic hreel hminimal hmkdir hraw hany
  rw [reel_fallback_run env cfg url st pk e raw hclient hsession hvalid hpk hinfo hic
      hreel hminimal hmkdir hraw hany]
  rw [trigger_flags_fail env hf]
  exact ⟨rfl, rfl⟩

/-- The fallback-scenario environment with a failing flag write. -/
def c10Env : DlEnv where
  clientAvailable := true
  sessionActive := true
  setupSessionResult := (true, "ok")
  mediaPkRes := .ok "12345"
  mediaInfoRes := .error ⟨"ValidationError", "1 validation error for Media"⟩
  probeVideoOk := false
  probePhotoOk := false
  minimalInfoFails := false
  mkdirErr := none
  rawMediaData := some ⟨[⟨[⟨some "https://cdn.example/v1.mp4"⟩], [], []⟩]⟩
  attemptUrl := fun _ => true
  videoDownload := fun _ => .error ⟨"RuntimeError", "not used"⟩
  photoDownload := fun _ => .error ⟨"RuntimeError", "not used"⟩
  flagWriteFails := true

/-- Witness for C10: with a concrete flag-write failure the download
still reports success and the flag store stays empty. -/
theorem flag_write_failure_policy_witness :
    (download_single_reel c10Env ⟨"input_videos", "input_images", 3⟩
        "https://www.instagram.com/reel/ABC123/" none ⟨[], []⟩).1 =
      (true, "Downloaded: " ++ ("instagram_" ++ "12345" ++ ".mp4")) ∧
    (download_single_reel c10Env ⟨"input_videos", "input_images", 3⟩
        "https://www.instagram.com/reel/ABC123/" none ⟨[], []⟩).2.1.flags = [] := by
  have h := (flag_write_failure_policy c10Env ⟨"input_videos", "input_images", 3⟩
      "https://www.instagram.com/reel/ABC123/" none ⟨[], []⟩ "12345"
      ⟨"ValidationError", "1 validation error for Media"⟩
      ⟨[⟨[⟨some "https://cdn.example/v1.mp4"⟩], [], []⟩]⟩ rfl).2
    rfl rfl (by decide) rfl rfl (by decide) (by decide) rfl rfl rfl (by decide)
  exact h

/-! ### Boundary totality (claim C5) -/

theorem boundaryHandler_spec (e : PyError) :
    (boundaryHandler e).1 = false ∧ (boundaryHandler e).2 ≠ "" := by
  unfold boundaryHandler
  split
  · exact ⟨rfl, by decide⟩
  · split
    · exact ⟨rfl, by decide⟩
    · exact ⟨rfl, append_ne_empty_left _ _ (by decide)⟩

theorem verifyAndQueue_msg_ne (env : DlEnv) (st : DlState) (dp : FPath)
    (mi : MediaInfo) (url : String) :
    (verifyAndQueue env st dp mi url).1.2 ≠ "" := by
  unfold verifyAndQueue
  split
  · exact append_ne_empty_left _ _ (by decide)
  · show ("Download failed - file not found at expected location" : String) ≠ ""
    decide

theorem normalDownload_msg_ne (env : DlEnv) (st : DlState) (mi : MediaInfo)
    (url folder safe ext kind : String) (op : Nat → Except PyError (Option FPath))
    (attempts : Nat) (pk : String) (hkind : kind ≠ "") :
    (normalDownload env st mi url folder safe ext kind op attempts pk).1.2 ≠ "" := by
  unfold normalDownload
  dsimp only
  cases hres : (retry_download_with_backoff op attempts).1 with
  | error e => exact append_ne_empty_left _ _ (append_ne_empty_left _ _ hkind)
  | ok dfo =>
    cases dfo with
    | some df =>
      dsimp only
      split
      · split
        · exact verifyAndQueue_msg_ne _ _ _ _ _
        · exact verifyAndQueue_msg_ne _ _ _ _ _
      · split
        · exact append_ne_empty_left _ _ hkind
        · exact verifyAndQueue_msg_ne _ _ _ _ _
    | none =>
      dsimp only
      split
      · exact append_ne_empty_left _ _ hkind
      · exact verifyAndQueue_msg_ne _ _ _ _ _

theorem routeAndDownload_msg_ne (env : DlEnv) (cfg : DlCfg) (url : String)
    (fo : Option String) (st : DlState) (pk : String) (mi : MediaInfo) (ufb : Bool) :
    (routeAndDownload env cfg url fo st pk mi ufb).1.2 ≠ "" := by
  unfold routeAndDownload
  dsimp only
  split
  · exact (boundaryHandler_spec _).2
  · split
    · split
      · exact append_ne_empty_left _ _ (by decide)
      · exact verifyAndQueue_msg_ne _ _ _ _ _
    · split
      · exact normalDownload_msg_ne _ _ _ _ _ _ _ _ _ _ _ (by decide)
      · exact normalDownload_msg_ne _ _ _ _ _ _ _ _ _ _ _ (by decide)

theorem routeAndDownload_mkdir_fails (env : DlEnv) (cfg : DlCfg) (url : String)
    (fo : Option String) (st : DlState) (pk : String) (mi : MediaInfo) (ufb : Bool)
    (e : PyError) (hmk : env.mkdirErr = some e) :
    (routeAndDownload env cfg url fo st pk mi ufb).1 = boundaryHandler e := by
  unfold routeAndDownload
  dsimp only
  rw [hmk]

/-- C5: for every environment, URL and folder, `download_single_reel`
returns a plain `(bool, message)` result — the boundary embedding is
total, every raise site being routed to a local handler or to the
line-934 boundary handler — with a nonempty human-readable message, and
an exception escaping the one uncaught inner raise site (`mkdir`) is
reduced to a `False` result, never success. -/
theorem download_boundary_policy (env : DlEnv) (cfg : DlCfg) (url : String)
    (fo : Option String) (st : DlState) :
    (download_single_reel env cfg url fo st).1.2 ≠ "" ∧
    (∀ e, env.mkdirErr = some e →
      (download_single_reel env cfg url fo st).1.1 = false) := by
  constructor
  · unfold download_single_reel
    split
    · show ("Instagram client not available" : String) ≠ ""
      decide
    · split
      · exact append_ne_empty_left _ _ (by decide)
      · split
        · show ("Invalid Instagram URL format" : String) ≠ ""
          decide
        · split
          · exact append_ne_empty_left _ _ (by decide)
          · split
            · exact routeAndDownload_msg_ne _ _ _ _ _ _ _ _
            · split
              · split
                · exact routeAndDownload_msg_ne _ _ _ _ _ _ _ _
                · show ("ValidationError: Could not parse metadata and fallback failed" : String) ≠ ""
                  decide
              · exact append_ne_empty_left _ _ (by decide)
  · intro e hmk
    unfold download_single_reel
    split
    · rfl
    · split
      · rfl
      · split
        · rfl
        · split
          · rfl
          · split
            · dsimp only
              rw [routeAndDownload_mkdir_fails _ _ _ _ _ _ _ _ e hmk]
              exact (boundaryHandler_spec e).1
            · split
              · split
                · dsimp only
                  rw [routeAndDownload_mkdir_fails _ _ _ _ _ _ _ _ e hmk]
                  exact (boundaryHandler_spec e).1
                · rfl
              · rfl

/-- An environment whose `mkdir` raises (a local I/O failure). -/
def c5Env : DlEnv where
  clientAvailable := true
  sessionActive := true
  setupSessionResult := (true, "ok")
  mediaPkRes := .ok "999"
  mediaInfoRes := .ok ⟨"999", 2, false⟩
  probeVideoOk := false
  probePhotoOk := false
  minimalInfoFails := false
  mkdirErr := some ⟨"OSError", "disk full"⟩
  rawMediaData := none
  attemptUrl := fun _ => false
  videoDownload := fun _ => .error ⟨"RuntimeError", "not used"⟩
  photoDownload := fun _ => .error ⟨"RuntimeError", "not used"⟩
  flagWriteFails := false

/-- Witness for C5: on a concrete environment whose `mkdir` raises, the
boundary yields a nonempty message and a `False` result. -/
theorem download_boundary_policy_witness :
    (download_single_reel c5Env ⟨"input_videos", "input_images", 3⟩
        "https://www.instagram.com/reel/ABC123/" none ⟨[], []⟩).1.2 ≠ "" ∧
    (download_single_reel c5Env ⟨"input_videos", "input_images", 3⟩
        "https://www.instagram.com/reel/ABC123/" none ⟨[], []⟩).1.1 = false := by
  have h := download_boundary_policy c5Env ⟨"input_videos", "input_images", 3⟩
    "https://www.instagram.com/reel/ABC123/" none ⟨[], []⟩
  exact ⟨h.1, h.2 ⟨"OSError", "disk full"⟩ rfl⟩

end InsightMiner
